import Mathlib

/-!
Shallow embedding of the invocation orchestrator
`src/packages/core/src/services/ai/index.ts` (the exported `ai` function)
of the latitude-llm repository.

The orchestrator's collaborators — the rule engine (`applyAllRules`), the
provider adapter selector (`createProvider`), the tool registry builder
(`buildTools`), the error translator (`handleAICallAPIError`) and the
default streaming SDK (`streamText` / `streamObject` from the `ai`
package) — live outside the provided sources, so they are modelled as
abstract capability parameters collected in an `Env`.  The orchestrator
itself is transcribed statement by statement; every outbound call it makes
(adapter resolution, adapter factory invocation, and the two streaming
backend entry points) is recorded in an explicit call log so that claims
about which calls are issued, and with which arguments, become provable
statements about the log.

Opaque runtime values (streams, eventual values, provider metadata, model
handles…) are represented by numeric handles: the orchestrator only moves
them around, never inspects them.
-/

namespace LatitudeAI

/-- Opaque handle for runtime values the orchestrator only forwards
(streams, eventual text/object values, usage records, metadata…). -/
abbrev Handle := Nat

/-- A chat message; opaque to the orchestrator, which only forwards it. -/
structure Message where
  id : Nat
deriving DecidableEq, Repr

/-- A JSON schema; opaque to the orchestrator. -/
structure JSONSchema7 where
  id : Nat
deriving DecidableEq, Repr

/-- A provider type (the `Providers` enum of `providers/models`). -/
structure Providers where
  name : String
deriving DecidableEq, Repr

/-- Provider credentials (`ProviderApiKey`): provider type, token, url. -/
structure ProviderApiKey where
  provider : Providers
  token : String
  url : Option String
deriving DecidableEq, Repr

/-- The `output` selector: `'object' | 'array' | 'no-schema'`
(`undefined` is modelled as `Option.none` at use sites). -/
inductive ObjectOutput where
  | object
  | array
  | noSchema
deriving DecidableEq, Repr

/-- The `tools` entry of the config, opaque to the orchestrator (it is
handed to `buildTools` uninspected). -/
structure ToolDefinitions where
  id : Nat
deriving DecidableEq, Repr

/-- The callable tool map produced by `buildTools`; opaque. -/
structure BuiltTools where
  id : Nat
deriving DecidableEq, Repr

/-- The `providerOptions` config entry; opaque, forwarded verbatim. -/
structure ProviderOptions where
  id : Nat
deriving DecidableEq, Repr

/-- An abort signal handle; opaque, forwarded verbatim. -/
structure AbortSignal where
  id : Nat
deriving DecidableEq, Repr

/-- A resolved language-model handle; opaque to the orchestrator. -/
structure LanguageModel where
  id : Nat
deriving DecidableEq, Repr

/-- `VercelConfig`: the fields the orchestrator reads by name, plus `rest`
for all remaining (provider-agnostic) fields, which it never touches
individually.  `Option.none` models an absent key. -/
structure VercelConfig where
  model : String
  tools : Option ToolDefinitions
  schema : Option JSONSchema7
  cacheControl : Option Bool
  providerOptions : Option ProviderOptions
  rest : List (String × Nat)
deriving DecidableEq, Repr

/-- A rule violation produced by the rule engine. -/
structure Rule where
  ruleMessage : String
deriving DecidableEq, Repr

/-- The result of `applyAllRules`: possibly rewritten messages/config and
the accumulated violations. -/
structure AppliedRules where
  rules : List Rule
  messages : List Message
  config : VercelConfig
deriving DecidableEq, Repr

/-- The three run-error codes appearing in `ai`'s error type. -/
inductive RunErrorCodes where
  | AIProviderConfigError
  | AIRunError
  | Unknown
deriving DecidableEq, Repr

/-- A domain error (`ChainError`): code and message. -/
structure ChainError where
  code : RunErrorCodes
  message : String
deriving DecidableEq, Repr

/-- The repository's `TypedResult`: tagged success or error. -/
inductive TypedResult (α ε : Type) where
  | ok (value : α)
  | error (err : ε)
deriving DecidableEq, Repr

/-- An exception thrown by a collaborator (caught by `ai`'s try/catch). -/
structure Exn where
  id : Nat
deriving DecidableEq, Repr

/-- The options object passed to the adapter factory:
`{ cacheControl: config.cacheControl ?? false, ...omit(config, ['providerOptions']) }`.
When `config.cacheControl` is present the spread overwrites the explicit
entry with the same value, so the net effect is `config.cacheControl.getD false`. -/
structure AdapterOptions where
  cacheControl : Bool
  model : String
  tools : Option ToolDefinitions
  schema : Option JSONSchema7
  rest : List (String × Nat)
deriving DecidableEq, Repr

/-- The argument object of `createProvider`. -/
structure CreateProviderArgs where
  messages : List Message
  provider : ProviderApiKey
  apiKey : String
  url : Option String
  config : VercelConfig
deriving DecidableEq, Repr

/-- A stream transform; `smoothStream()` is the only one `ai` uses. -/
inductive StreamTransform where
  | smoothStream
deriving DecidableEq, Repr

/-- `experimental_telemetry` object. -/
structure Telemetry where
  isEnabled : Bool
deriving DecidableEq, Repr

/-- `commonOptions`: `{ ...schemaLessConfig, model, prompt, messages, tools,
abortSignal, providerOptions, experimental_telemetry }`.  `schema` and
`cacheControl` are the leftovers of spreading `schemaLessConfig`
(= `omit(config, ['schema'])`, hence `schema` is always `none` here);
`model` and `tools` are overridden with the resolved handle and the built
tool map. -/
structure CommonOptions where
  schema : Option JSONSchema7
  cacheControl : Option Bool
  rest : List (String × Nat)
  model : LanguageModel
  prompt : Option String
  messages : List Message
  tools : BuiltTools
  abortSignal : Option AbortSignal
  providerOptions : Option ProviderOptions
  experimental_telemetry : Telemetry
deriving DecidableEq, Repr

/-- The `jsonSchema(...)` wrapper applied to the schema before it is handed
to `streamObject`. -/
structure WrappedSchema where
  schema : JSONSchema7
deriving DecidableEq, Repr

/-- Models the `jsonSchema` helper of the `ai` SDK. -/
def jsonSchema (s : JSONSchema7) : WrappedSchema := ⟨s⟩

/-- Argument object of the `streamText` backend call:
`{ ...commonOptions, experimental_transform: smoothStream() }`. -/
structure StreamTextArgs where
  options : CommonOptions
  experimental_transform : Option StreamTransform
deriving DecidableEq, Repr

/-- Argument object of the `streamObject` backend call:
`{ ...commonOptions, schema: jsonSchema(schema), output }`.
No `experimental_transform` key is ever set on this path (`none`). -/
structure StreamObjectArgs where
  options : CommonOptions
  schema : WrappedSchema
  output : ObjectOutput
  experimental_transform : Option StreamTransform
deriving DecidableEq, Repr

/-- The fields `ai` reads off a `streamText` result. -/
structure RawTextResult where
  fullStream : Handle
  text : Handle
  reasoning : Handle
  usage : Handle
  toolCalls : Handle
  providerMetadata : Handle
deriving DecidableEq, Repr

/-- The fields `ai` reads off a `streamObject` result. -/
structure RawObjectResult where
  fullStream : Handle
  object : Handle
  usage : Handle
  providerMetadata : Handle
deriving DecidableEq, Repr

/-- The discriminated success union `AIReturn` (`type: 'text' | 'object'`). -/
inductive AIReturn where
  | text (fullStream textVal reasoning usage toolCalls providerMetadata : Handle)
      (providerName : Providers)
  | object (fullStream objectVal usage providerMetadata : Handle)
      (providerName : Providers)
deriving DecidableEq, Repr

/-- The `type` discriminant of an `AIReturn`. -/
def AIReturn.type : AIReturn → String
  | .text _ _ _ _ _ _ _ => "text"
  | .object _ _ _ _ _ => "object"

/-- The `providerName` field of an `AIReturn`. -/
def AIReturn.providerName : AIReturn → Providers
  | .text _ _ _ _ _ _ p => p
  | .object _ _ _ _ p => p

/-- One outbound call issued by the orchestrator, recorded in order. -/
inductive BackendCall where
  | createProviderCall (args : CreateProviderArgs)
  | adapterCall (modelId : String) (opts : AdapterOptions)
  | streamTextCall (args : StreamTextArgs)
  | streamObjectCall (args : StreamObjectArgs)
deriving DecidableEq, Repr

/-- An adapter factory as returned by `createProvider`; invoking it may
throw. -/
abbrev AdapterFactory := String → AdapterOptions → Except Exn LanguageModel

/-- The `streamText` backend entry point; may throw. -/
abbrev StreamTextFn := StreamTextArgs → Except Exn RawTextResult

/-- The `streamObject` backend entry point; may throw. -/
abbrev StreamObjectFn := StreamObjectArgs → Except Exn RawObjectResult

/-- The streaming SDK capability pair (`DEFAULT_AI_SDK_PROVIDER` shape). -/
structure AISDKProvider where
  streamText : StreamTextFn
  streamObject : StreamObjectFn

/-- The caller-injectable `Partial<AISDKProvider>`. -/
structure PartialAISDKProvider where
  streamText : Option StreamTextFn
  streamObject : Option StreamObjectFn

/-- The orchestrator's external collaborators.  Each may throw (`Except.error`),
mirroring a thrown JS exception caught by `ai`'s try/catch. -/
structure Env where
  applyAllRules : Providers → List Message → VercelConfig → Except Exn AppliedRules
  createProvider : CreateProviderArgs → Except Exn (TypedResult AdapterFactory ChainError)
  buildTools : Option ToolDefinitions → Except Exn (TypedResult BuiltTools ChainError)
  defaultSdkProvider : AISDKProvider
  handleAICallAPIError : Exn → ChainError

/-- The parameter object of `ai`. -/
structure AiParams where
  provider : ProviderApiKey
  prompt : Option String
  messages : List Message
  config : VercelConfig
  schema : Option JSONSchema7
  output : Option ObjectOutput
  customLanguageModel : Option LanguageModel
  aiSdkProvider : Option PartialAISDKProvider
  abortSignal : Option AbortSignal

/-- `const { streamText, streamObject } = { ...DEFAULT_AI_SDK_PROVIDER, ...(aiSdkProvider || {}) }`. -/
def mergedSdk (env : Env) (p : AiParams) : AISDKProvider :=
  let part := p.aiSdkProvider.getD { streamText := none, streamObject := none }
  { streamText := part.streamText.getD env.defaultSdkProvider.streamText
    streamObject := part.streamObject.getD env.defaultSdkProvider.streamObject }

/-- The options the adapter factory receives (see `AdapterOptions`). -/
def mkAdapterOptions (config : VercelConfig) : AdapterOptions :=
  { cacheControl := config.cacheControl.getD false
    model := config.model
    tools := config.tools
    schema := config.schema
    rest := config.rest }

/-- The argument object handed to `createProvider`. -/
def mkCreateProviderArgs (p : AiParams) (messages : List Message)
    (config : VercelConfig) : CreateProviderArgs :=
  { messages := messages
    provider := p.provider
    apiKey := p.provider.token
    url := p.provider.url
    config := config }

/-- `commonOptions` as built by `ai` (see `CommonOptions`). -/
def mkCommonOptions (p : AiParams) (config : VercelConfig)
    (messages : List Message) (languageModel : LanguageModel)
    (tools : BuiltTools) : CommonOptions :=
  { schema := none
    cacheControl := config.cacheControl
    rest := config.rest
    model := languageModel
    prompt := p.prompt
    messages := messages
    tools := tools
    abortSignal := p.abortSignal
    providerOptions := config.providerOptions
    experimental_telemetry := { isEnabled := true } }

/-- The rule-violation error message:
`'There are rule violations:\n' + rule.rules.map(r => '- ' + r.ruleMessage).join('\n')`. -/
def ruleViolationMessage (rules : List Rule) : String :=
  "There are rule violations:\n" ++
    String.intercalate "\n" (rules.map (fun r => "- " ++ r.ruleMessage))

/-- Tail of `ai` after the language model is resolved: tool building, mode
choice and backend dispatch.  Returns the try-block outcome plus the calls
issued by this tail. -/
def aiAfterModel (env : Env) (sdk : AISDKProvider) (p : AiParams)
    (config : VercelConfig) (messages : List Message)
    (providerType : Providers) (languageModel : LanguageModel) :
    Except Exn (TypedResult AIReturn ChainError) × List BackendCall :=
  match env.buildTools config.tools with
  | Except.error e => (Except.error e, [])
  | Except.ok (TypedResult.error err) => (Except.ok (TypedResult.error err), [])
  | Except.ok (TypedResult.ok builtTools) =>
    let commonOptions := mkCommonOptions p config messages languageModel builtTools
    match p.schema, p.output with
    | some schema, some output =>
      let args : StreamObjectArgs :=
        { options := commonOptions
          schema := jsonSchema schema
          output := output
          experimental_transform := none }
      match sdk.streamObject args with
      | Except.error e => (Except.error e, [BackendCall.streamObjectCall args])
      | Except.ok result =>
        (Except.ok (TypedResult.ok (AIReturn.object result.fullStream
            result.object result.usage result.providerMetadata providerType)),
         [BackendCall.streamObjectCall args])
    | _, _ =>
      let args : StreamTextArgs :=
        { options := commonOptions
          experimental_transform := some StreamTransform.smoothStream }
      match sdk.streamText args with
      | Except.error e => (Except.error e, [BackendCall.streamTextCall args])
      | Except.ok result =>
        (Except.ok (TypedResult.ok (AIReturn.text result.fullStream
            result.text result.reasoning result.usage result.toolCalls
            result.providerMetadata providerType)),
         [BackendCall.streamTextCall args])

/-- The try-block of `ai`: rule pass, short-circuit on violations, adapter
resolution, model handle resolution, then `aiAfterModel`.  The second
component is the ordered list of outbound calls issued. -/
def aiTry (env : Env) (p : AiParams) :
    Except Exn (TypedResult AIReturn ChainError) × List BackendCall :=
  let sdk := mergedSdk env p
  match env.applyAllRules p.provider.provider p.messages p.config with
  | Except.error e => (Except.error e, [])
  | Except.ok rule =>
    if rule.rules.length > 0 then
      (Except.ok (TypedResult.error
        { code := RunErrorCodes.AIRunError
          message := ruleViolationMessage rule.rules }), [])
    else
      let providerType := p.provider.provider
      let config := rule.config
      let messages := rule.messages
      let model := config.model
      let cpArgs := mkCreateProviderArgs p messages config
      match env.createProvider cpArgs with
      | Except.error e =>
          (Except.error e, [BackendCall.createProviderCall cpArgs])
      | Except.ok (TypedResult.error err) =>
          (Except.ok (TypedResult.error err),
           [BackendCall.createProviderCall cpArgs])
      | Except.ok (TypedResult.ok providerAdapter) =>
        match p.customLanguageModel with
        | some languageModel =>
          let tail := aiAfterModel env sdk p config messages providerType languageModel
          (tail.1, BackendCall.createProviderCall cpArgs :: tail.2)
        | none =>
          let adapterOpts := mkAdapterOptions config
          match providerAdapter model adapterOpts with
          | Except.error e =>
              (Except.error e,
               [BackendCall.createProviderCall cpArgs,
                BackendCall.adapterCall model adapterOpts])
          | Except.ok languageModel =>
            let tail := aiAfterModel env sdk p config messages providerType languageModel
            (tail.1,
             BackendCall.createProviderCall cpArgs ::
               BackendCall.adapterCall model adapterOpts :: tail.2)

/-- The exported `ai` function: the try-block, with any thrown exception
routed through the error translator (`handleAICallAPIError`). -/
def ai (env : Env) (p : AiParams) :
    TypedResult AIReturn ChainError × List BackendCall :=
  match aiTry env p with
  | (Except.ok r, log) => (r, log)
  | (Except.error e, log) =>
      (TypedResult.error (env.handleAICallAPIError e), log)

/-! ## Concrete test fixtures

Concrete environments and requests used to witness the theorems below and
to exhibit counterexamples.  `envOk` is a fully succeeding environment
whose rule engine is the identity transformation with no violations. -/

/-- The `openai` provider type. -/
def providerOpenAI : Providers := ⟨"openai"⟩

/-- Concrete provider credentials. -/
def providerKey0 : ProviderApiKey :=
  { provider := providerOpenAI, token := "tok", url := none }

/-- A concrete config: model `gpt-test`, one passthrough field, no tools,
no schema, no cache-control flag, no provider options. -/
def config0 : VercelConfig :=
  { model := "gpt-test"
    tools := none
    schema := none
    cacheControl := none
    providerOptions := none
    rest := [("temperature", 7)] }

/-- A concrete message list. -/
def messages0 : List Message := [⟨1⟩]

/-- A stub streaming SDK returning fixed handles. -/
def stubSdk : AISDKProvider :=
  { streamText := fun _ => Except.ok ⟨1, 2, 3, 4, 5, 6⟩
    streamObject := fun _ => Except.ok ⟨1, 2, 3, 4⟩ }

/-- An identity rule engine: no violations, messages/config unchanged. -/
def idRules : Providers → List Message → VercelConfig → Except Exn AppliedRules :=
  fun _ msgs cfg => Except.ok { rules := [], messages := msgs, config := cfg }

/-- A stub adapter factory returning a fixed model handle. -/
def stubFactory : AdapterFactory := fun _ _ => Except.ok ⟨7⟩

/-- A stub error translator. -/
def translate0 : Exn → ChainError :=
  fun _ => { code := RunErrorCodes.Unknown, message := "Unknown error" }

/-- A fully succeeding environment. -/
def envOk : Env :=
  { applyAllRules := idRules
    createProvider := fun _ => Except.ok (TypedResult.ok stubFactory)
    buildTools := fun _ => Except.ok (TypedResult.ok ⟨9⟩)
    defaultSdkProvider := stubSdk
    handleAICallAPIError := translate0 }

/-- A base request: free-text mode, no custom handle, no signal. -/
def params0 : AiParams :=
  { provider := providerKey0
    prompt := none
    messages := messages0
    config := config0
    schema := none
    output := none
    customLanguageModel := none
    aiSdkProvider := none
    abortSignal := none }

/-- A rule-engine result with two violations. -/
def ruleViol : AppliedRules :=
  { rules := [⟨"wrong role"⟩, ⟨"bad content"⟩]
    messages := messages0
    config := config0 }

/-- `envOk` with a rule engine reporting the two violations of `ruleViol`. -/
def envViol : Env :=
  { envOk with applyAllRules := fun _ _ _ => Except.ok ruleViol }

/-- `envOk` whose `streamText` backend throws exception `42`. -/
def envThrow : Env :=
  { envOk with
      defaultSdkProvider :=
        { streamText := fun _ => Except.error ⟨42⟩
          streamObject := fun _ => Except.ok ⟨1, 2, 3, 4⟩ } }

/-- The adapter-resolution (configuration) error used in counterexamples. -/
def cfgError0 : ChainError :=
  { code := RunErrorCodes.AIProviderConfigError, message := "Provider not found" }

/-- `envOk` whose `createProvider` returns the error `cfgError0`. -/
def envCfgErr : Env :=
  { envOk with createProvider := fun _ => Except.ok (TypedResult.error cfgError0) }

/-- A concrete caller-built custom language-model handle. -/
def customModel0 : LanguageModel := ⟨5⟩

/-- `params0` with the custom model handle `customModel0` supplied. -/
def paramsCustom : AiParams := { params0 with customLanguageModel := some customModel0 }

/-- A concrete schema. -/
def schema3 : JSONSchema7 := ⟨3⟩

/-- `config0` carrying a schema field. -/
def configSchema : VercelConfig := { config0 with schema := some schema3 }

/-- A free-text request whose config carries a schema field (the request
itself supplies no schema/output selector). -/
def paramsSchemaText : AiParams := { params0 with config := configSchema }

/-- A schema-constrained request: both schema and output selector set. -/
def paramsObject : AiParams :=
  { params0 with schema := some schema3, output := some ObjectOutput.object }

/-- `params0` with a cancellation signal. -/
def paramsSignal : AiParams := { params0 with abortSignal := some ⟨11⟩ }

/-- The `streamText` arguments issued by `ai envOk params0`. -/
def textArgs0 : StreamTextArgs :=
  { options := mkCommonOptions params0 config0 messages0 ⟨7⟩ ⟨9⟩
    experimental_transform := some StreamTransform.smoothStream }

/-- The `streamText` arguments issued by `ai envOk paramsCustom`. -/
def textArgsCustom : StreamTextArgs :=
  { options := mkCommonOptions paramsCustom config0 messages0 customModel0 ⟨9⟩
    experimental_transform := some StreamTransform.smoothStream }

/-- The `streamText` arguments issued by `ai envOk paramsSchemaText`. -/
def textArgsSchema : StreamTextArgs :=
  { options := mkCommonOptions paramsSchemaText configSchema messages0 ⟨7⟩ ⟨9⟩
    experimental_transform := some StreamTransform.smoothStream }

/-- The `streamText` arguments issued by `ai envOk paramsSignal`. -/
def textArgsSignal : StreamTextArgs :=
  { options := mkCommonOptions paramsSignal config0 messages0 ⟨7⟩ ⟨9⟩
    experimental_transform := some StreamTransform.smoothStream }

/-- The `streamObject` arguments issued by `ai envOk paramsObject`. -/
def objectArgs0 : StreamObjectArgs :=
  { options := mkCommonOptions paramsObject config0 messages0 ⟨7⟩ ⟨9⟩
    schema := jsonSchema schema3
    output := ObjectOutput.object
    experimental_transform := none }

/-- The identity rule-engine output for requests built on `config0`. -/
def rule0 : AppliedRules :=
  { rules := [], messages := messages0, config := config0 }

/-- The identity rule-engine output for `paramsSchemaText`. -/
def ruleSchemaText : AppliedRules :=
  { rules := [], messages := messages0, config := configSchema }

/-- The text-mode success value returned by `ai envOk params0`. -/
def vText0 : AIReturn := AIReturn.text 1 2 3 4 5 6 providerOpenAI

/-- The object-mode success value returned by `ai envOk paramsObject`. -/
def vObject0 : AIReturn := AIReturn.object 1 2 3 4 providerOpenAI

/-- The call log of `ai envOk paramsObject`. -/
def logObject0 : List BackendCall :=
  [BackendCall.createProviderCall (mkCreateProviderArgs paramsObject messages0 config0),
   BackendCall.adapterCall "gpt-test" (mkAdapterOptions config0),
   BackendCall.streamObjectCall objectArgs0]

/-- The call log of `ai envOk params0`. -/
def logText0 : List BackendCall :=
  [BackendCall.createProviderCall (mkCreateProviderArgs params0 messages0 config0),
   BackendCall.adapterCall "gpt-test" (mkAdapterOptions config0),
   BackendCall.streamTextCall textArgs0]

/-! ## Structural lemmas -/

/-- `ai` returns exactly the call log of its try-block. -/
lemma ai_log (env : Env) (p : AiParams) : (ai env p).2 = (aiTry env p).2 := by
  unfold ai
  rcases h : aiTry env p with ⟨r | e, log⟩ <;> simp

/-- A successful `ai` result comes from a successful try-block. -/
lemma ai_ok_aiTry {env : Env} {p : AiParams} {v : AIReturn}
    {log : List BackendCall} (h : ai env p = (TypedResult.ok v, log)) :
    aiTry env p = (Except.ok (TypedResult.ok v), log) := by
  unfold ai at h
  rcases hA : aiTry env p with ⟨r | e, l⟩ <;> rw [hA] at h <;>
    simp_all

/-- Inversion for a successful `aiAfterModel`: the success value is either
the object-mode result (when both `schema` and `output` are present) or the
text-mode result (otherwise), with `providerName` set to `providerType`. -/
lemma aiAfterModel_ok_inv {env : Env} {sdk : AISDKProvider} {p : AiParams}
    {config : VercelConfig} {messages : List Message} {providerType : Providers}
    {languageModel : LanguageModel} {v : AIReturn} {log : List BackendCall}
    (h : aiAfterModel env sdk p config messages providerType languageModel =
      (Except.ok (TypedResult.ok v), log)) :
    (p.schema.isSome ∧ p.output.isSome →
      v.type = "object" ∧ v.providerName = providerType) ∧
    (¬(p.schema.isSome ∧ p.output.isSome) →
      v.type = "text" ∧ v.providerName = providerType) := by
  unfold aiAfterModel at h
  split at h
  · simp_all
  · simp_all
  · split at h
    · rename_i hs ho
      dsimp only at h
      split at h
      · simp_all
      · simp only [Prod.mk.injEq, Except.ok.injEq, TypedResult.ok.injEq] at h
        obtain ⟨hv, -⟩ := h
        subst hv
        refine ⟨fun _ => ⟨rfl, rfl⟩, fun hn => absurd ⟨?_, ?_⟩ hn⟩
        · simp [hs]
        · simp [ho]
    · rename_i hne
      dsimp only at h
      split at h
      · simp_all
      · simp only [Prod.mk.injEq, Except.ok.injEq, TypedResult.ok.injEq] at h
        obtain ⟨hv, -⟩ := h
        subst hv
        constructor
        · rintro ⟨hs, ho⟩
          rcases Option.isSome_iff_exists.mp hs with ⟨s, hs'⟩
          rcases Option.isSome_iff_exists.mp ho with ⟨o, ho'⟩
          exact (hne s o hs' ho').elim
        · intro _
          exact ⟨rfl, rfl⟩

/-- Every call issued by `aiAfterModel` is a streaming backend call. -/
lemma aiAfterModel_calls {env : Env} {sdk : AISDKProvider} {p : AiParams}
    {config : VercelConfig} {messages : List Message} {providerType : Providers}
    {languageModel : LanguageModel} {c : BackendCall}
    (h : c ∈ (aiAfterModel env sdk p config messages providerType languageModel).2) :
    (∃ a, c = BackendCall.streamTextCall a) ∨
      (∃ a, c = BackendCall.streamObjectCall a) := by
  unfold aiAfterModel at h
  split at h
  · simp_all
  · simp_all
  · split at h <;> dsimp only at h <;> split at h <;> simp_all

/-- Inversion for a `streamText` call issued by `aiAfterModel`: tool
building succeeded, the mode is free-text (schema or output absent), and
the arguments are exactly `commonOptions` plus the smoothing transform. -/
lemma aiAfterModel_textCall_inv {env : Env} {sdk : AISDKProvider} {p : AiParams}
    {config : VercelConfig} {messages : List Message} {providerType : Providers}
    {languageModel : LanguageModel} {args : StreamTextArgs}
    (h : BackendCall.streamTextCall args ∈
      (aiAfterModel env sdk p config messages providerType languageModel).2) :
    ∃ builtTools,
      env.buildTools config.tools = Except.ok (TypedResult.ok builtTools) ∧
      args = { options := mkCommonOptions p config messages languageModel builtTools
               experimental_transform := some StreamTransform.smoothStream } ∧
      ¬(p.schema.isSome ∧ p.output.isSome) := by
  unfold aiAfterModel at h
  split at h
  · simp_all
  · simp_all
  · rename_i bt hbt
    split at h
    · rename_i hs ho
      dsimp only at h
      split at h <;> simp_all
    · rename_i hne
      dsimp only at h
      split at h <;>
      · simp only [List.mem_singleton, BackendCall.streamTextCall.injEq] at h
        refine ⟨bt, hbt, h, ?_⟩
        rintro ⟨hs, ho⟩
        rcases Option.isSome_iff_exists.mp hs with ⟨s, hs'⟩
        rcases Option.isSome_iff_exists.mp ho with ⟨o, ho'⟩
        exact hne s o hs' ho'

/-- Inversion for a `streamObject` call issued by `aiAfterModel`: tool
building succeeded, both `schema` and `output` were supplied, and the
arguments are `commonOptions` (schema-stripped) plus the wrapped schema and
the output selector, with no stream transform. -/
lemma aiAfterModel_objectCall_inv {env : Env} {sdk : AISDKProvider} {p : AiParams}
    {config : VercelConfig} {messages : List Message} {providerType : Providers}
    {languageModel : LanguageModel} {args : StreamObjectArgs}
    (h : BackendCall.streamObjectCall args ∈
      (aiAfterModel env sdk p config messages providerType languageModel).2) :
    ∃ s o builtTools,
      p.schema = some s ∧ p.output = some o ∧
      env.buildTools config.tools = Except.ok (TypedResult.ok builtTools) ∧
      args = { options := mkCommonOptions p config messages languageModel builtTools
               schema := jsonSchema s
               output := o
               experimental_transform := none } := by
  unfold aiAfterModel at h
  split at h
  · simp_all
  · simp_all
  · rename_i bt hbt
    split at h
    · rename_i hs ho
      dsimp only at h
      split at h <;>
      · simp only [List.mem_singleton, BackendCall.streamObjectCall.injEq] at h
        exact ⟨_, _, bt, hs, ho, hbt, h⟩
    · rename_i hne
      dsimp only at h
      split at h <;> simp_all

/-- Inversion for a successful try-block: the rule pass succeeded with no
violations and the result was produced by `aiAfterModel` on the
rule-transformed messages/config, with `providerType = provider.provider`. -/
lemma aiTry_ok_inv {env : Env} {p : AiParams} {v : AIReturn}
    {log : List BackendCall}
    (h : aiTry env p = (Except.ok (TypedResult.ok v), log)) :
    ∃ rule languageModel tailLog,
      env.applyAllRules p.provider.provider p.messages p.config = Except.ok rule ∧
      rule.rules = [] ∧
      aiAfterModel env (mergedSdk env p) p rule.config rule.messages
        p.provider.provider languageModel =
          (Except.ok (TypedResult.ok v), tailLog) := by
  unfold aiTry at h
  split at h
  · simp_all
  · rename_i rule hrule
    split at h
    · simp_all
    · rename_i hlen
      have hnil := List.length_eq_zero.mp (Nat.eq_zero_of_not_pos hlen)
      dsimp only at h
      split at h
      · simp_all
      · simp_all
      · rename_i adapter hcp
        split at h
        · rename_i lm hlm
          simp only [Prod.mk.injEq] at h
          obtain ⟨h1, -⟩ := h
          exact ⟨rule, lm, _, hrule, hnil, by rw [← h1]⟩
        · rename_i hnone
          split at h
          · simp_all
          · rename_i lm hcall
            simp only [Prod.mk.injEq] at h
            obtain ⟨h1, -⟩ := h
            exact ⟨rule, lm, _, hrule, hnil, by rw [← h1]⟩

/-- Inversion for a `streamText` call in the try-block's log: the rule pass
succeeded without violations, the call was issued by `aiAfterModel` on the
rule-transformed data, and a caller-supplied custom model handle, if any,
is the model in use. -/
lemma aiTry_textCall_inv {env : Env} {p : AiParams} {args : StreamTextArgs}
    (h : BackendCall.streamTextCall args ∈ (aiTry env p).2) :
    ∃ rule languageModel,
      env.applyAllRules p.provider.provider p.messages p.config = Except.ok rule ∧
      rule.rules = [] ∧
      (∀ lm, p.customLanguageModel = some lm → languageModel = lm) ∧
      BackendCall.streamTextCall args ∈
        (aiAfterModel env (mergedSdk env p) p rule.config rule.messages
          p.provider.provider languageModel).2 := by
  unfold aiTry at h
  split at h
  · simp_all
  · rename_i rule hrule
    split at h
    · simp_all
    · rename_i hlen
      have hnil := List.length_eq_zero.mp (Nat.eq_zero_of_not_pos hlen)
      dsimp only at h
      split at h
      · simp_all
      · simp_all
      · rename_i adapter hcp
        split at h
        · rename_i lm hlm
          simp only [List.mem_cons] at h
          rcases h with h | h
          · exact absurd h (by simp)
          · exact ⟨rule, lm, hrule, hnil,
              fun lm0 h0 => (Option.some.inj (h0 ▸ hlm)).symm, h⟩
        · rename_i hnone
          split at h
          · simp_all
          · rename_i lm hcall
            simp only [List.mem_cons] at h
            rcases h with h | h | h
            · exact absurd h (by simp)
            · exact absurd h (by simp)
            · exact ⟨rule, lm, hrule, hnil,
                fun lm0 h0 => by simp [hnone] at h0, h⟩

/-- Inversion for a `streamObject` call in the try-block's log (same shape
as `aiTry_textCall_inv`). -/
lemma aiTry_objectCall_inv {env : Env} {p : AiParams} {args : StreamObjectArgs}
    (h : BackendCall.streamObjectCall args ∈ (aiTry env p).2) :
    ∃ rule languageModel,
      env.applyAllRules p.provider.provider p.messages p.config = Except.ok rule ∧
      rule.rules = [] ∧
      (∀ lm, p.customLanguageModel = some lm → languageModel = lm) ∧
      BackendCall.streamObjectCall args ∈
        (aiAfterModel env (mergedSdk env p) p rule.config rule.messages
          p.provider.provider languageModel).2 := by
  unfold aiTry at h
  split at h
  · simp_all
  · rename_i rule hrule
    split at h
    · simp_all
    · rename_i hlen
      have hnil := List.length_eq_zero.mp (Nat.eq_zero_of_not_pos hlen)
      dsimp only at h
      split at h
      · simp_all
      · simp_all
      · rename_i adapter hcp
        split at h
        · rename_i lm hlm
          simp only [List.mem_cons] at h
          rcases h with h | h
          · exact absurd h (by simp)
          · exact ⟨rule, lm, hrule, hnil,
              fun lm0 h0 => (Option.some.inj (h0 ▸ hlm)).symm, h⟩
        · rename_i hnone
          split at h
          · simp_all
          · rename_i lm hcall
            simp only [List.mem_cons] at h
            rcases h with h | h | h
            · exact absurd h (by simp)
            · exact absurd h (by simp)
            · exact ⟨rule, lm, hrule, hnil,
                fun lm0 h0 => by simp [hnone] at h0, h⟩

/-- Inversion for an adapter-factory invocation: it only happens when no
custom model handle was supplied, with the rule-transformed config's model
identifier and the normalized adapter options. -/
lemma aiTry_adapterCall_inv {env : Env} {p : AiParams} {m : String}
    {opts : AdapterOptions}
    (h : BackendCall.adapterCall m opts ∈ (aiTry env p).2) :
    ∃ rule,
      env.applyAllRules p.provider.provider p.messages p.config = Except.ok rule ∧
      rule.rules = [] ∧
      p.customLanguageModel = none ∧
      m = rule.config.model ∧
      opts = mkAdapterOptions rule.config := by
  unfold aiTry at h
  split at h
  · simp_all
  · rename_i rule hrule
    split at h
    · simp_all
    · rename_i hlen
      have hnil := List.length_eq_zero.mp (Nat.eq_zero_of_not_pos hlen)
      dsimp only at h
      split at h
      · simp_all
      · simp_all
      · rename_i adapter hcp
        split at h
        · rename_i lm hlm
          simp only [List.mem_cons] at h
          rcases h with h | h
          · exact absurd h (by simp)
          · rcases aiAfterModel_calls h with ⟨a, ha⟩ | ⟨a, ha⟩ <;> simp at ha
        · rename_i hnone
          split at h
          · simp only [List.mem_cons, List.not_mem_nil, or_false] at h
            rcases h with h | h
            · exact absurd h (by simp)
            · simp only [BackendCall.adapterCall.injEq] at h
              exact ⟨rule, hrule, hnil, hnone, h.1, h.2⟩
          · rename_i lm hcall
            simp only [List.mem_cons] at h
            rcases h with h | h | h
            · exact absurd h (by simp)
            · simp only [BackendCall.adapterCall.injEq] at h
              exact ⟨rule, hrule, hnil, hnone, h.1, h.2⟩
            · rcases aiAfterModel_calls h with ⟨a, ha⟩ | ⟨a, ha⟩ <;> simp at ha

/-! ## Claim theorems -/

/-- C1: when the rule engine reports one or more violations, `ai` returns
an `AIRunError` whose message lists every violation message, one per line,
each prefixed by the `- ` marker, and issues no outbound call at all
(no adapter resolution, no adapter-factory invocation, no `streamText` or
`streamObject` call: the call log is empty). -/
theorem ai_rule_violations_error (env : Env) (p : AiParams) (rule : AppliedRules)
    (hr : env.applyAllRules p.provider.provider p.messages p.config = Except.ok rule)
    (hv : rule.rules.length > 0) :
    ai env p =
      (TypedResult.error
        { code := RunErrorCodes.AIRunError
          message := ruleViolationMessage rule.rules }, []) := by
  unfold ai aiTry
  rw [hr]
  simp [hv]

/-- Witness for C1: a rule engine reporting two violations makes `ai`
return the `AIRunError` listing both, with an empty call log. -/
theorem ai_rule_violations_error_witness :
    envViol.applyAllRules params0.provider.provider params0.messages params0.config
      = Except.ok ruleViol ∧
    ruleViol.rules.length > 0 ∧
    ruleViolationMessage ruleViol.rules =
      "There are rule violations:\n- wrong role\n- bad content" ∧
    ai envViol params0 =
      (TypedResult.error
        { code := RunErrorCodes.AIRunError
          message := ruleViolationMessage ruleViol.rules }, []) :=
  ⟨rfl, by decide, rfl,
   ai_rule_violations_error envViol params0 ruleViol rfl (by decide)⟩

/-- C2: `ai` never raises — any exception thrown inside the try-block
(rule pass, adapter resolution, adapter-factory invocation, tool building
or backend dispatch) is converted by the error translator
`handleAICallAPIError` into a returned error result. -/
theorem ai_try_exception_translated (env : Env) (p : AiParams) (e : Exn)
    (h : (aiTry env p).1 = Except.error e) :
    (ai env p).1 = TypedResult.error (env.handleAICallAPIError e) := by
  unfold ai
  rcases hA : aiTry env p with ⟨r | e2, log⟩ <;> simp_all

/-- Witness for C2: a backend that throws exception `42` during dispatch
yields the translated error. -/
theorem ai_try_exception_translated_witness :
    (aiTry envThrow params0).1 = Except.error ⟨42⟩ ∧
    (ai envThrow params0).1 =
      TypedResult.error (envThrow.handleAICallAPIError ⟨42⟩) :=
  ⟨rfl, ai_try_exception_translated envThrow params0 ⟨42⟩ rfl⟩

/-- C3: generation mode is a binary branch on the presence of both the
schema and the output selector: a success result has `type = "object"`
(with `providerName` the resolved provider type) exactly when both are
present, and `type = "text"` otherwise; no third mode exists. -/
theorem ai_generation_mode (env : Env) (p : AiParams) (v : AIReturn)
    (log : List BackendCall) (h : ai env p = (TypedResult.ok v, log)) :
    (p.schema.isSome ∧ p.output.isSome →
      v.type = "object" ∧ v.providerName = p.provider.provider) ∧
    (¬(p.schema.isSome ∧ p.output.isSome) → v.type = "text") := by
  obtain ⟨rule, lm, tailLog, hr, hnil, hA⟩ := aiTry_ok_inv (ai_ok_aiTry h)
  have hinv := aiAfterModel_ok_inv hA
  exact ⟨hinv.1, fun hn => (hinv.2 hn).1⟩

/-- Witness for C3: a request without schema/output yields a `"text"`
result; one with both yields an `"object"` result with the provider type. -/
theorem ai_generation_mode_witness :
    ai envOk params0 = (TypedResult.ok vText0, logText0) ∧
    vText0.type = "text" ∧
    ai envOk paramsObject = (TypedResult.ok vObject0, logObject0) ∧
    vObject0.type = "object" ∧ vObject0.providerName = providerOpenAI :=
  ⟨by decide,
   (ai_generation_mode envOk params0 vText0 logText0 (by decide)).2 (by decide),
   by decide,
   ((ai_generation_mode envOk paramsObject vObject0 logObject0 (by decide)).1
      (by decide)).1,
   ((ai_generation_mode envOk paramsObject vObject0 logObject0 (by decide)).1
      (by decide)).2⟩

/-- C4 (counterexample): the claim that a custom model handle bypasses
adapter resolution entirely is false — with a custom handle supplied,
`createProvider` is still consulted (its call is logged) and its failure
becomes the result of the request. -/
theorem ai_custom_model_cex :
    paramsCustom.customLanguageModel = some customModel0 ∧
    ai envCfgErr paramsCustom =
      (TypedResult.error cfgError0,
       [BackendCall.createProviderCall
          (mkCreateProviderArgs paramsCustom messages0 config0)]) :=
  ⟨rfl, by decide⟩

/-- C4 (amended): for every request with a caller-built custom model
handle, the handle is used verbatim in the backend call and the adapter
factory is never invoked; adapter resolution (`createProvider`) is still
consulted, however, and its failure short-circuits such a request (see
`ai_custom_model_cex`). -/
theorem ai_custom_model_verbatim (env : Env) (p : AiParams) (lm : LanguageModel)
    (h : p.customLanguageModel = some lm) :
    (∀ m opts, BackendCall.adapterCall m opts ∉ (ai env p).2) ∧
    (∀ args, BackendCall.streamTextCall args ∈ (ai env p).2 →
      args.options.model = lm) ∧
    (∀ args, BackendCall.streamObjectCall args ∈ (ai env p).2 →
      args.options.model = lm) := by
  refine ⟨fun m opts hmem => ?_, fun args hmem => ?_, fun args hmem => ?_⟩
  · rw [ai_log env p] at hmem
    obtain ⟨rule, -, -, hnone, -, -⟩ := aiTry_adapterCall_inv hmem
    exact Option.noConfusion (h.symm.trans hnone)
  · rw [ai_log env p] at hmem
    obtain ⟨rule, lm', -, -, hcust, hA⟩ := aiTry_textCall_inv hmem
    obtain ⟨bt, -, hargs, -⟩ := aiAfterModel_textCall_inv hA
    subst hargs
    simpa [mkCommonOptions] using hcust lm h
  · rw [ai_log env p] at hmem
    obtain ⟨rule, lm', -, -, hcust, hA⟩ := aiTry_objectCall_inv hmem
    obtain ⟨s, o, bt, -, -, -, hargs⟩ := aiAfterModel_objectCall_inv hA
    subst hargs
    simpa [mkCommonOptions] using hcust lm h

/-- Witness for the amended C4: with a custom handle, the backend call
carries exactly that handle as its model. -/
theorem ai_custom_model_verbatim_witness :
    paramsCustom.customLanguageModel = some customModel0 ∧
    BackendCall.streamTextCall textArgsCustom ∈ (ai envOk paramsCustom).2 ∧
    textArgsCustom.options.model = customModel0 :=
  ⟨rfl, by decide,
   (ai_custom_model_verbatim envOk paramsCustom customModel0 rfl).2.1
     textArgsCustom (by decide)⟩

/-- C5 (counterexample): the claim that no config field is added, removed
or rewritten beyond what the rule engine produced is false — in free-text
mode the orchestrator strips the `schema` field out of the rule-transformed
config before the backend call: here the rule engine outputs a config with
`schema = some schema3`, yet the options handed to `streamText` carry no
schema. -/
theorem ai_passthrough_cex :
    envOk.applyAllRules paramsSchemaText.provider.provider
        paramsSchemaText.messages paramsSchemaText.config =
      Except.ok ruleSchemaText ∧
    ruleSchemaText.config.schema = some schema3 ∧
    (ai envOk paramsSchemaText).2 =
      [BackendCall.createProviderCall
         (mkCreateProviderArgs paramsSchemaText messages0 configSchema),
       BackendCall.adapterCall "gpt-test" (mkAdapterOptions configSchema),
       BackendCall.streamTextCall textArgsSchema] ∧
    textArgsSchema.options.schema = none :=
  ⟨rfl, rfl, by decide, rfl⟩

/-- C5 (amended): for every request that reaches a backend call, the
rule-transformed messages are passed through unchanged, and every config
field except `model` (replaced by the resolved handle), `tools` (replaced
by the built tool map) and `schema` (stripped) is passed through unchanged
to the backend options; `prompt` is forwarded from the request. -/
theorem ai_passthrough_amended (env : Env) (p : AiParams) (rule : AppliedRules)
    (hr : env.applyAllRules p.provider.provider p.messages p.config = Except.ok rule) :
    (∀ args, BackendCall.streamTextCall args ∈ (ai env p).2 →
      args.options.messages = rule.messages ∧
      args.options.rest = rule.config.rest ∧
      args.options.providerOptions = rule.config.providerOptions ∧
      args.options.cacheControl = rule.config.cacheControl ∧
      args.options.schema = none ∧
      args.options.prompt = p.prompt) ∧
    (∀ args, BackendCall.streamObjectCall args ∈ (ai env p).2 →
      args.options.messages = rule.messages ∧
      args.options.rest = rule.config.rest ∧
      args.options.providerOptions = rule.config.providerOptions ∧
      args.options.cacheControl = rule.config.cacheControl ∧
      args.options.schema = none ∧
      args.options.prompt = p.prompt) := by
  constructor
  · intro args hmem
    rw [ai_log env p] at hmem
    obtain ⟨rule', lm, hr', -, -, hA⟩ := aiTry_textCall_inv hmem
    obtain rfl : rule' = rule := Except.ok.inj (hr'.symm.trans hr)
    obtain ⟨bt, -, hargs, -⟩ := aiAfterModel_textCall_inv hA
    subst hargs
    simp [mkCommonOptions]
  · intro args hmem
    rw [ai_log env p] at hmem
    obtain ⟨rule', lm, hr', -, -, hA⟩ := aiTry_objectCall_inv hmem
    obtain rfl : rule' = rule := Except.ok.inj (hr'.symm.trans hr)
    obtain ⟨s, o, bt, -, -, -, hargs⟩ := aiAfterModel_objectCall_inv hA
    subst hargs
    simp [mkCommonOptions]

/-- Witness for the amended C5: on a concrete run the backend options agree
with the rule-transformed config on `messages` and the passthrough fields. -/
theorem ai_passthrough_amended_witness :
    envOk.applyAllRules paramsSchemaText.provider.provider
        paramsSchemaText.messages paramsSchemaText.config =
      Except.ok ruleSchemaText ∧
    BackendCall.streamTextCall textArgsSchema ∈ (ai envOk paramsSchemaText).2 ∧
    textArgsSchema.options.messages = ruleSchemaText.messages ∧
    textArgsSchema.options.rest = ruleSchemaText.config.rest :=
  ⟨rfl, by decide,
   ((ai_passthrough_amended envOk paramsSchemaText ruleSchemaText rfl).1
      textArgsSchema (by decide)).1,
   ((ai_passthrough_amended envOk paramsSchemaText ruleSchemaText rfl).1
      textArgsSchema (by decide)).2.1⟩

/-- C6: every `streamText` call carries the token-smoothing transform
(`experimental_transform = smoothStream`), and every `streamObject` call
carries no stream transform. -/
theorem ai_stream_transform (env : Env) (p : AiParams) :
    (∀ args, BackendCall.streamTextCall args ∈ (ai env p).2 →
      args.experimental_transform = some StreamTransform.smoothStream) ∧
    (∀ args, BackendCall.streamObjectCall args ∈ (ai env p).2 →
      args.experimental_transform = none) := by
  constructor
  · intro args hmem
    rw [ai_log env p] at hmem
    obtain ⟨rule, lm, -, -, -, hA⟩ := aiTry_textCall_inv hmem
    obtain ⟨bt, -, hargs, -⟩ := aiAfterModel_textCall_inv hA
    subst hargs
    rfl
  · intro args hmem
    rw [ai_log env p] at hmem
    obtain ⟨rule, lm, -, -, -, hA⟩ := aiTry_objectCall_inv hmem
    obtain ⟨s, o, bt, -, -, -, hargs⟩ := aiAfterModel_objectCall_inv hA
    subst hargs
    rfl

/-- Witness for C6: a concrete free-text call carries the smoothing
transform, and a concrete schema-constrained call carries none. -/
theorem ai_stream_transform_witness :
    BackendCall.streamTextCall textArgs0 ∈ (ai envOk params0).2 ∧
    textArgs0.experimental_transform = some StreamTransform.smoothStream ∧
    BackendCall.streamObjectCall objectArgs0 ∈ (ai envOk paramsObject).2 ∧
    objectArgs0.experimental_transform = none :=
  ⟨by decide,
   (ai_stream_transform envOk params0).1 textArgs0 (by decide),
   by decide,
   (ai_stream_transform envOk paramsObject).2 objectArgs0 (by decide)⟩

/-- C7: in schema-constrained mode the generic options carry no schema
field (`options.schema = none`): the schema reaches the backend only
through the dedicated `schema` parameter as `jsonSchema` of the request's
schema, alongside the output selector, while the remaining config fields
stay intact in the options. -/
theorem ai_object_schema_strip (env : Env) (p : AiParams) (rule : AppliedRules)
    (hr : env.applyAllRules p.provider.provider p.messages p.config = Except.ok rule) :
    ∀ args, BackendCall.streamObjectCall args ∈ (ai env p).2 →
      args.options.schema = none ∧
      (∃ s, p.schema = some s ∧ args.schema = jsonSchema s) ∧
      (∃ o, p.output = some o ∧ args.output = o) ∧
      args.options.rest = rule.config.rest ∧
      args.options.cacheControl = rule.config.cacheControl ∧
      args.options.providerOptions = rule.config.providerOptions := by
  intro args hmem
  rw [ai_log env p] at hmem
  obtain ⟨rule', lm, hr', -, -, hA⟩ := aiTry_objectCall_inv hmem
  obtain rfl : rule' = rule := Except.ok.inj (hr'.symm.trans hr)
  obtain ⟨s, o, bt, hs, ho, -, hargs⟩ := aiAfterModel_objectCall_inv hA
  subst hargs
  exact ⟨rfl, ⟨s, hs, rfl⟩, ⟨o, ho, rfl⟩, rfl, rfl, rfl⟩

/-- Witness for C7: on a concrete schema-constrained run the options carry
no schema and the dedicated parameter carries the wrapped schema. -/
theorem ai_object_schema_strip_witness :
    BackendCall.streamObjectCall objectArgs0 ∈ (ai envOk paramsObject).2 ∧
    objectArgs0.options.schema = none ∧
    objectArgs0.schema = jsonSchema schema3 :=
  ⟨by decide,
   (ai_object_schema_strip envOk paramsObject rule0 rfl objectArgs0 (by decide)).1,
   rfl⟩

/-- C8: every backend call — free-text or schema-constrained alike —
receives exactly the caller's cancellation signal (`abortSignal`),
unchanged; a request without a signal passes none. -/
theorem ai_signal_passthrough (env : Env) (p : AiParams) :
    (∀ args, BackendCall.streamTextCall args ∈ (ai env p).2 →
      args.options.abortSignal = p.abortSignal) ∧
    (∀ args, BackendCall.streamObjectCall args ∈ (ai env p).2 →
      args.options.abortSignal = p.abortSignal) := by
  constructor
  · intro args hmem
    rw [ai_log env p] at hmem
    obtain ⟨rule, lm, -, -, -, hA⟩ := aiTry_textCall_inv hmem
    obtain ⟨bt, -, hargs, -⟩ := aiAfterModel_textCall_inv hA
    subst hargs
    rfl
  · intro args hmem
    rw [ai_log env p] at hmem
    obtain ⟨rule, lm, -, -, -, hA⟩ := aiTry_objectCall_inv hmem
    obtain ⟨s, o, bt, -, -, -, hargs⟩ := aiAfterModel_objectCall_inv hA
    subst hargs
    rfl

/-- Witness for C8: a concrete request with signal `11` has exactly that
signal on its backend call. -/
theorem ai_signal_passthrough_witness :
    BackendCall.streamTextCall textArgsSignal ∈ (ai envOk paramsSignal).2 ∧
    textArgsSignal.options.abortSignal = paramsSignal.abortSignal ∧
    paramsSignal.abortSignal = some ⟨11⟩ :=
  ⟨by decide,
   (ai_signal_passthrough envOk paramsSignal).1 textArgsSignal (by decide),
   rfl⟩

/-- C9: every backend call — `streamText` and `streamObject` alike — is
issued with `experimental_telemetry.isEnabled = true`; no input can
disable it. -/
theorem ai_telemetry_enabled (env : Env) (p : AiParams) :
    (∀ args, BackendCall.streamTextCall args ∈ (ai env p).2 →
      args.options.experimental_telemetry = { isEnabled := true }) ∧
    (∀ args, BackendCall.streamObjectCall args ∈ (ai env p).2 →
      args.options.experimental_telemetry = { isEnabled := true }) := by
  constructor
  · intro args hmem
    rw [ai_log env p] at hmem
    obtain ⟨rule, lm, -, -, -, hA⟩ := aiTry_textCall_inv hmem
    obtain ⟨bt, -, hargs, -⟩ := aiAfterModel_textCall_inv hA
    subst hargs
    rfl
  · intro args hmem
    rw [ai_log env p] at hmem
    obtain ⟨rule, lm, -, -, -, hA⟩ := aiTry_objectCall_inv hmem
    obtain ⟨s, o, bt, -, -, -, hargs⟩ := aiAfterModel_objectCall_inv hA
    subst hargs
    rfl

/-- Witness for C9: telemetry is enabled on concrete text and object
backend calls. -/
theorem ai_telemetry_enabled_witness :
    BackendCall.streamTextCall textArgs0 ∈ (ai envOk params0).2 ∧
    textArgs0.options.experimental_telemetry = { isEnabled := true } ∧
    BackendCall.streamObjectCall objectArgs0 ∈ (ai envOk paramsObject).2 ∧
    objectArgs0.options.experimental_telemetry = { isEnabled := true } :=
  ⟨by decide,
   (ai_telemetry_enabled envOk params0).1 textArgs0 (by decide),
   by decide,
   (ai_telemetry_enabled envOk paramsObject).2 objectArgs0 (by decide)⟩

/-- C10: when the rule-transformed config carries no cache-control flag,
any adapter-factory invocation receives `cacheControl` explicitly set to
`false` (the options' `cacheControl` is a mandatory boolean, never an
absent value). -/
theorem ai_cache_control_normalized (env : Env) (p : AiParams) (rule : AppliedRules)
    (hr : env.applyAllRules p.provider.provider p.messages p.config = Except.ok rule)
    (hcc : rule.config.cacheControl = none) :
    ∀ m opts, BackendCall.adapterCall m opts ∈ (ai env p).2 →
      opts.cacheControl = false := by
  intro m opts hmem
  rw [ai_log env p] at hmem
  obtain ⟨rule', hr', -, -, -, hopts⟩ := aiTry_adapterCall_inv hmem
  obtain rfl : rule' = rule := Except.ok.inj (hr'.symm.trans hr)
  subst hopts
  simp [mkAdapterOptions, hcc]

/-- Witness for C10: with `config0` (no cache-control flag) the adapter
factory is invoked with `cacheControl = false`. -/
theorem ai_cache_control_normalized_witness :
    envOk.applyAllRules params0.provider.provider params0.messages params0.config
      = Except.ok rule0 ∧
    rule0.config.cacheControl = none ∧
    BackendCall.adapterCall "gpt-test" (mkAdapterOptions config0)
      ∈ (ai envOk params0).2 ∧
    (mkAdapterOptions config0).cacheControl = false :=
  ⟨rfl, rfl, by decide,
   ai_cache_control_normalized envOk params0 rule0 rfl rfl
     "gpt-test" (mkAdapterOptions config0) (by decide)⟩

end LatitudeAI
